import Mathlib

/-!
Shallow embedding of the search-page controller of manga-tui
(src/view/pages/search.rs) together with the parts of its data model that
the page uses. Concurrency is made explicit: every `tokio::spawn`,
`thread::spawn` and channel `send` performed by the controller is recorded
as an `Effect`, and each background task body is embedded as a pure
function from the outcome of its remote/CPU call to the list of events it
sends. Raw bytes, decoded images and terminal protocol handles are
abstracted as natural numbers (their contents are never inspected by the
controller).
-/

namespace MangaTui

/-- Raw image bytes (opaque to the controller). -/
abbrev Bytes := Nat

/-- A decoded raster image (opaque to the controller). -/
abbrev DynamicImage := Nat

/-- A terminal-cell protocol handle (opaque to the controller). -/
abbrev ProtocolHandle := Nat

/-- Modelled from the spec: cover metadata of a search-response item
(the `CoverImgAttributes` type lives in the backend module, which is not
part of the reviewed sources); it carries the cover file name used by the
fetch stage. -/
structure CoverImgAttributes where
  file_name : String
deriving DecidableEq, Repr

/-- Modelled from the spec: a relationship entry of a search-response
item (backend module, not in the reviewed sources); its `attributes`
field is present exactly when cover metadata exists. -/
structure Relationship where
  attributes : Option CoverImgAttributes
deriving DecidableEq, Repr

/-- Modelled from the spec: one item of the remote search response
(backend module, not in the reviewed sources): a stable id, display
metadata, and the relationship list in which cover metadata may appear. -/
structure Manga where
  id : String
  title : String
  description : String
  tags : List String
  relationships : List Relationship
deriving DecidableEq, Repr

/-- Modelled from the spec: the remote search response (backend module,
not in the reviewed sources): an ordered array of found items. -/
structure SearchMangaResponse where
  data : List Manga
deriving DecidableEq, Repr

/-- Page state machine, from `enum PageState` in search.rs: searching is
in flight, results are displayed, or neither (`Normal`, the default). -/
inductive PageState where
  | SearchingMangas
  | DisplayingSearchResponse
  | Normal
deriving DecidableEq, Repr

instance : Inhabited PageState := ⟨PageState.Normal⟩

/-- Input routing mode, from `enum InputMode` in search.rs
(`Idle` is the default). -/
inductive InputMode where
  | Typing
  | Idle
deriving DecidableEq, Repr

instance : Inhabited InputMode := ⟨InputMode.Idle⟩

/-- Background-pipeline events, from `enum SearchPageEvents` in
search.rs. -/
inductive SearchPageEvents where
  | LoadCover (image : Option DynamicImage) (id : String)
  | DecodeImage (bytes : Option Bytes) (id : String)
  | LoadMangasFound (response : Option SearchMangaResponse)
deriving DecidableEq, Repr

/-- User actions, from `enum SearchPageActions` in search.rs. -/
inductive SearchPageActions where
  | StartTyping
  | StopTyping
  | Search
  | ScrollUp
  | ScrollDown
deriving DecidableEq, Repr

/-- Modelled from the spec: the per-item image pipeline state
(`ThreadProtocol`, defined in view::widgets::search, which is not in the
reviewed sources). It owns the renderable protocol handle, initially
absent and filled in once the asynchronous raster-encode stage completes
(via a global `Redraw` event); the channel endpoint to the resize worker
is not represented. -/
structure ThreadProtocol where
  inner : Option ProtocolHandle
deriving DecidableEq, Repr

/-- `ThreadProtocol::new`, modelled from the spec: the stored handle
starts absent; the freshly prepared resize protocol is handed to the
worker, not stored. -/
def ThreadProtocol.new (_protocol : DynamicImage) : ThreadProtocol :=
  { inner := none }

/-- Modelled from the spec: a result item (`MangaItem`, defined in
view::widgets::search, not in the reviewed sources): id, display
metadata, and an optional image pipeline state. -/
structure MangaItem where
  id : String
  title : String
  description : String
  tags : List String
  image_state : Option ThreadProtocol
deriving DecidableEq, Repr

/-- `MangaItem::from(Manga)`, modelled from the spec: an item is created
when a search response is parsed, with no image pipeline state yet. -/
def MangaItem.fromManga (manga : Manga) : MangaItem :=
  { id := manga.id
    title := manga.title
    description := manga.description
    tags := manga.tags
    image_state := none }

/-- Modelled from the spec: the result-list widget
(`ListMangasFoundWidget`, defined in view::widgets::search, not in the
reviewed sources): an ordered sequence of result items. -/
structure ListMangasFoundWidget where
  mangas : List MangaItem
deriving DecidableEq, Repr

/-- `ListMangasFoundWidget::new`. -/
def ListMangasFoundWidget.new (mangas : List MangaItem) : ListMangasFoundWidget :=
  ⟨mangas⟩

instance : Inhabited ListMangasFoundWidget := ⟨⟨[]⟩⟩

/-- Modelled from the spec: the selection state of the external
`tui_widget_list` crate (not in the reviewed sources): an optional
cursor index. -/
structure ListState where
  selected : Option Nat
deriving DecidableEq, Repr

instance : Inhabited ListState := ⟨⟨none⟩⟩

/-- `ListState::next`, modelled from the spec: moves the selection
cursor down by one, clamped to the list bounds (no wraparound); on an
empty list the cursor is absent. The current list length, which the real
widget records at render time, is passed explicitly. -/
def ListState.next (s : ListState) (len : Nat) : ListState :=
  if len = 0 then { selected := none }
  else
    match s.selected with
    | none => { selected := some 0 }
    | some i => { selected := some (min (i + 1) (len - 1)) }

/-- `ListState::previous`, modelled from the spec: moves the selection
cursor up by one, clamped at zero (no wraparound); on an empty list the
cursor is absent. -/
def ListState.previous (s : ListState) (len : Nat) : ListState :=
  if len = 0 then { selected := none }
  else
    match s.selected with
    | none => { selected := some 0 }
    | some i => { selected := some (i - 1) }

/-- `struct MangasFoundList` from search.rs: the result-list widget plus
its selection state. -/
structure MangasFoundList where
  widget : ListMangasFoundWidget
  state : ListState
deriving DecidableEq, Repr

instance : Inhabited MangasFoundList := ⟨⟨default, default⟩⟩

/-- The page controller state owned by `struct SearchPage` in search.rs.
Channel endpoints, the HTTP client and the terminal picker are not data:
sends and spawns are recorded as `Effect`s instead. -/
structure SearchPage where
  input_mode : InputMode
  search_bar : String
  state : PageState
  mangas_found_list : MangasFoundList
deriving DecidableEq, Repr

/-- Side effects the controller performs: sends on the page-local event
channel, and the background units it spawns (`tokio::spawn` for the
search and cover fetches, `std::thread::spawn` for decode and for the
per-item resize loop). -/
inductive Effect where
  | sendLocal (event : SearchPageEvents)
  | spawnSearchTask (query : String)
  | spawnCoverFetchTask (id : String) (file_name : String)
  | spawnDecodeThread (bytes : Bytes) (id : String)
  | spawnResizeLoop (id : String)
deriving DecidableEq, Repr

/-- Convenience accessor: the current result list. -/
def SearchPage.mangas (page : SearchPage) : List MangaItem :=
  page.mangas_found_list.widget.mangas

/-- Convenience accessor: the current selection cursor. -/
def SearchPage.selected (page : SearchPage) : Option Nat :=
  page.mangas_found_list.state.selected

/-- `SearchPage::scroll_down` from search.rs: advances the widget-list
selection state (length of the current list supplied to the modelled
`ListState::next`). -/
def SearchPage.scroll_down (page : SearchPage) : SearchPage :=
  { page with
    mangas_found_list :=
      { page.mangas_found_list with
        state := page.mangas_found_list.state.next
          page.mangas_found_list.widget.mangas.length } }

/-- `SearchPage::scroll_up` from search.rs. -/
def SearchPage.scroll_up (page : SearchPage) : SearchPage :=
  { page with
    mangas_found_list :=
      { page.mangas_found_list with
        state := page.mangas_found_list.state.previous
          page.mangas_found_list.widget.mangas.length } }

/-- `SearchPage::get_current_manga_selected` from search.rs: safe read
of the item under the cursor (`Vec::get`). -/
def SearchPage.get_current_manga_selected (page : SearchPage) : Option MangaItem :=
  match page.mangas_found_list.state.selected with
  | some index => page.mangas_found_list.widget.mangas.get? index
  | none => none

/-- `SearchPage::update` from search.rs. The `Search` arm is
unconditional: it sets the page state, replaces the widget with the
default (empty) one — leaving the selection state untouched — and spawns
the search task capturing the current query text. -/
def SearchPage.update (page : SearchPage) (action : SearchPageActions) :
    SearchPage × List Effect :=
  match action with
  | .StartTyping => ({ page with input_mode := InputMode.Typing }, [])
  | .StopTyping => ({ page with input_mode := InputMode.Idle }, [])
  | .Search =>
      ({ page with
          state := PageState.SearchingMangas
          mangas_found_list := { page.mangas_found_list with widget := default } },
        [Effect.spawnSearchTask page.search_bar])
  | .ScrollUp => (page.scroll_up, [])
  | .ScrollDown => (page.scroll_down, [])

/-- The body of the search task spawned by the `Search` arm of
`SearchPage::update`: given the outcome of
`MangadexClient::search_mangas`, the events it sends on the local
channel. -/
def searchTaskSends (search_response : Except Unit SearchMangaResponse) :
    List SearchPageEvents :=
  match search_response with
  | .ok mangas_found =>
      if mangas_found.data.isEmpty then
        [SearchPageEvents.LoadMangasFound none]
      else
        [SearchPageEvents.LoadMangasFound (some mangas_found)]
  | .error _ => [SearchPageEvents.LoadMangasFound none]

/-- The body of a cover-fetch task spawned while building the result
list: given the outcome of `MangadexClient::get_cover_for_manga`, the
events it sends on the local channel. -/
def coverFetchTaskSends (manga_id : String) (response : Except Unit Bytes) :
    List SearchPageEvents :=
  match response with
  | .ok bytes => [SearchPageEvents.DecodeImage (some bytes) manga_id]
  | .error _ => [SearchPageEvents.DecodeImage none manga_id]

/-- The body of the decode thread spawned on `DecodeImage(Some(bytes))`:
given the outcome of `dyn_img.decode()`, the events it sends on the
local channel. -/
def decodeThreadSends (manga_id : String) (maybe_decoded : Except Unit DynamicImage) :
    List SearchPageEvents :=
  match maybe_decoded with
  | .ok image => [SearchPageEvents.LoadCover (some image) manga_id]
  | .error _ => [SearchPageEvents.LoadCover none manga_id]

/-- One iteration of the list-building loop in the `LoadMangasFound`
arm of `SearchPage::tick`: the item pushed, and the effect this
iteration performs (spawn a cover fetch when some relationship carries
cover metadata, otherwise send `DecodeImage(None, id)` immediately). -/
def buildMangaEntry (manga : Manga) : MangaItem × List Effect :=
  let img_metadata :=
    manga.relationships.find? (fun relation => relation.attributes.isSome)
  let img_url :=
    match img_metadata with
    | some d => d.attributes.map (fun cover_img_attributes => cover_img_attributes.file_name)
    | none => none
  match img_url with
  | some file_name =>
      (MangaItem.fromManga manga, [Effect.spawnCoverFetchTask manga.id file_name])
  | none =>
      (MangaItem.fromManga manga,
        [Effect.sendLocal (SearchPageEvents.DecodeImage none manga.id)])

/-- Replace the first element satisfying `p` by its image under `f`
(the effect of `iter_mut().find(..)` followed by a mutation). -/
def updateFirst (p : α → Bool) (f : α → α) : List α → List α
  | [] => []
  | x :: xs => if p x then f x :: xs else x :: updateFirst p f xs

/-- The event-application step of `SearchPage::tick` from search.rs:
the state after consuming one local event, together with the effects
performed while consuming it. -/
def SearchPage.applyEvent (page : SearchPage) (event : SearchPageEvents) :
    SearchPage × List Effect :=
  match event with
  | .LoadMangasFound response =>
      let page := { page with state := PageState.DisplayingSearchResponse }
      match response with
      | some mangas_found =>
          let entries := mangas_found.data.map buildMangaEntry
          ({ page with
              mangas_found_list :=
                { page.mangas_found_list with
                  widget := ListMangasFoundWidget.new (entries.map Prod.fst) } },
            entries.flatMap Prod.snd)
      | none =>
          ({ page with
              mangas_found_list := { page.mangas_found_list with widget := default } },
            [])
  | .DecodeImage maybe_bytes manga_id =>
      match maybe_bytes with
      | some bytes => (page, [Effect.spawnDecodeThread bytes manga_id])
      | none => (page, [])
  | .LoadCover maybe_image manga_id =>
      match maybe_image with
      | some image =>
          if (page.mangas_found_list.widget.mangas.find?
                (fun manga => manga.id == manga_id)).isSome then
            ({ page with
                mangas_found_list :=
                  { page.mangas_found_list with
                    widget := ⟨updateFirst (fun manga => manga.id == manga_id)
                      (fun manga =>
                        { manga with image_state := some (ThreadProtocol.new image) })
                      page.mangas_found_list.widget.mangas⟩ } },
              [Effect.spawnResizeLoop manga_id])
          else (page, [])
      | none => (page, [])

/-- `SearchPage::tick` from search.rs, with the local event channel made
explicit as a queue: `try_recv` takes at most the head, applies it, and
any events sent during application are enqueued. Returns the new state,
the new queue, and the effects performed. -/
def SearchPage.tick (page : SearchPage) (queue : List SearchPageEvents) :
    SearchPage × List SearchPageEvents × List Effect :=
  match queue with
  | [] => (page, [], [])
  | event :: rest =>
      let res := page.applyEvent event
      (res.1,
        rest ++ res.2.filterMap (fun eff =>
          match eff with
          | Effect.sendLocal ev => some ev
          | _ => none),
        res.2)

/-- The `Events::Redraw` arm of `SearchPage::handle_events` from
search.rs: find the first item with the given id and, if it has an image
pipeline state, replace its stored protocol handle. -/
def SearchPage.handleRedraw (page : SearchPage) (new_protocol : ProtocolHandle)
    (index : String) : SearchPage :=
  { page with
    mangas_found_list :=
      { page.mangas_found_list with
        widget := ⟨updateFirst (fun manga => manga.id == index)
          (fun manga =>
            match manga.image_state with
            | some image_state =>
                { manga with image_state := some { image_state with inner := some new_protocol } }
            | none => manga)
          page.mangas_found_list.widget.mangas⟩ } }

/-- Key codes distinguished by `SearchPage::handle_key_events`. -/
inductive KeyCode where
  | Char (c : Char)
  | Enter
  | Esc
  | OtherKey
deriving DecidableEq, Repr

/-- `SearchPage::handle_key_events` from search.rs: the page (whose
search bar the input widget may edit) and the actions sent on the action
channel. In `Idle` mode keys `s`, `j`, `k` emit actions; in `Typing`
mode `Enter` emits `Search` only when the page is not already searching,
`Esc` emits `StopTyping`, and any other key is forwarded to the input
field (modelled for character keys as appending to the query text). -/
def SearchPage.handle_key_events (page : SearchPage) (key_code : KeyCode) :
    SearchPage × List SearchPageActions :=
  match page.input_mode with
  | .Idle =>
      match key_code with
      | .Char c =>
          if c = 's' then (page, [SearchPageActions.StartTyping])
          else if c = 'j' then (page, [SearchPageActions.ScrollDown])
          else if c = 'k' then (page, [SearchPageActions.ScrollUp])
          else (page, [])
      | _ => (page, [])
  | .Typing =>
      match key_code with
      | .Enter =>
          if page.state ≠ PageState.SearchingMangas then
            (page, [SearchPageActions.Search])
          else (page, [])
      | .Esc => (page, [SearchPageActions.StopTyping])
      | .Char c => ({ page with search_bar := page.search_bar.push c }, [])
      | .OtherKey => (page, [])

/-- The local events one item's cover pipeline produces, assembled from
the embedded task bodies: the fetch task sends one `DecodeImage` event
(`coverFetchTaskSends`); consuming `DecodeImage(Some(bytes))` spawns the
decode thread, which sends one `LoadCover` event (`decodeThreadSends`);
consuming `DecodeImage(None)` spawns nothing. -/
def pipelineLocalEvents (manga_id : String) (fetch : Except Unit Bytes)
    (decode : Bytes → Except Unit DynamicImage) : List SearchPageEvents :=
  (coverFetchTaskSends manga_id fetch).flatMap (fun ev =>
    ev :: (match ev with
      | SearchPageEvents.DecodeImage (some bytes) id => decodeThreadSends id (decode bytes)
      | _ => []))

/-- Apply a sequence of user actions through `SearchPage::update`,
discarding effects. -/
def SearchPage.applyActions (page : SearchPage) (actions : List SearchPageActions) :
    SearchPage :=
  actions.foldl (fun p a => (p.update a).1) page

/-- Whether an action is one of the two scroll actions. -/
def isScroll : SearchPageActions → Bool
  | .ScrollUp => true
  | .ScrollDown => true
  | _ => false

/-- The cursor is a valid index, or absent (absent is forced on an
empty list). -/
def SearchPage.cursorInBounds (page : SearchPage) : Prop :=
  match page.mangas_found_list.state.selected with
  | none => True
  | some i => i < page.mangas_found_list.widget.mangas.length

instance (page : SearchPage) : Decidable page.cursorInBounds := by
  unfold SearchPage.cursorInBounds
  match page.mangas_found_list.state.selected with
  | none => exact inferInstanceAs (Decidable True)
  | some i => exact inferInstanceAs (Decidable (_ < _))

/-- Every item carrying the given id has no image pipeline state. -/
def SearchPage.coverAbsent (page : SearchPage) (id : String) : Bool :=
  page.mangas_found_list.widget.mangas.all
    (fun manga => !(manga.id == id) || manga.image_state.isNone)

/-- Sample result item with id `a1`. -/
def itemA : MangaItem :=
  { id := "a1", title := "Naruto", description := "", tags := [], image_state := none }

/-- Sample result item with id `a2`. -/
def itemB : MangaItem :=
  { id := "a2", title := "Naruto: Shippuden", description := "", tags := [],
    image_state := none }

/-- Sample response item with cover metadata. -/
def mangaWithCover : Manga :=
  { id := "a1", title := "Naruto", description := "", tags := [],
    relationships := [{ attributes := some { file_name := "cover1.png" } }] }

/-- Sample response item without cover metadata. -/
def mangaNoCover : Manga :=
  { id := "a2", title := "Naruto: Shippuden", description := "", tags := [],
    relationships := [{ attributes := none }] }

/-- Sample two-item search response. -/
def sampleResponse : SearchMangaResponse :=
  ⟨[mangaWithCover, mangaNoCover]⟩

/-- A page currently searching, with a nonempty displayed list. -/
def searchingPage : SearchPage :=
  { input_mode := InputMode.Typing, search_bar := "naruto",
    state := PageState.SearchingMangas,
    mangas_found_list := { widget := ⟨[itemA]⟩, state := ⟨some 0⟩ } }

/-- A page displaying two results with the second one selected. -/
def selectedPage : SearchPage :=
  { input_mode := InputMode.Idle, search_bar := "naruto",
    state := PageState.DisplayingSearchResponse,
    mangas_found_list := { widget := ⟨[itemA, itemB]⟩, state := ⟨some 1⟩ } }

/-- The freshly initialized page (`SearchPage::init`): idle input, empty
query, default page state, empty list, no cursor. -/
def initPage : SearchPage :=
  { input_mode := default, search_bar := "", state := default,
    mangas_found_list := default }

/-- A page whose cursor is out of range for its (empty) result list, as
produced by a list replacement that does not reset the cursor. -/
def staleCursorPage : SearchPage :=
  { input_mode := InputMode.Idle, search_bar := "naruto",
    state := PageState.DisplayingSearchResponse,
    mangas_found_list := { widget := ⟨[]⟩, state := ⟨some 1⟩ } }

/-- A page displaying one result (`a2`) with no cursor. -/
def displayingPage : SearchPage :=
  { input_mode := InputMode.Idle, search_bar := "naruto",
    state := PageState.DisplayingSearchResponse,
    mangas_found_list := { widget := ⟨[itemB]⟩, state := ⟨none⟩ } }

theorem updateFirst_of_no_match {α : Type} {p : α → Bool} {f : α → α} {l : List α}
    (h : ∀ x ∈ l, p x = false) : updateFirst p f l = l := by
  induction l with
  | nil => rfl
  | cons x xs ih =>
      have hx := h x (List.mem_cons_self x xs)
      have hxs := ih (fun y hy => h y (List.mem_cons_of_mem x hy))
      simp [updateFirst, hx, hxs]

theorem applyEvent_loadCover_of_no_match (page : SearchPage)
    (image : Option DynamicImage) (id : String)
    (h : ∀ manga ∈ page.mangas, manga.id ≠ id) :
    page.applyEvent (SearchPageEvents.LoadCover image id) = (page, []) := by
  cases image with
  | none => rfl
  | some img =>
      have hfind :
          page.mangas_found_list.widget.mangas.find? (fun manga => manga.id == id) =
            none := by
        rw [List.find?_eq_none]
        intro x hx
        simpa using h x hx
      simp [SearchPage.applyEvent, hfind]

theorem handleRedraw_of_no_match (page : SearchPage) (new_protocol : ProtocolHandle)
    (id : String) (h : ∀ manga ∈ page.mangas, manga.id ≠ id) :
    page.handleRedraw new_protocol id = page := by
  have hl : updateFirst (fun manga => manga.id == id)
      (fun manga =>
        match manga.image_state with
        | some image_state =>
            { manga with image_state := some { image_state with inner := some new_protocol } }
        | none => manga)
      page.mangas_found_list.widget.mangas = page.mangas_found_list.widget.mangas := by
    refine updateFirst_of_no_match (fun x hx => ?_)
    simpa using h x hx
  simp [SearchPage.handleRedraw, hl]

/-- C4: applying any `LoadMangasFound` event sets the page state to
`DisplayingSearchResponse` unconditionally, and applying
`LoadMangasFound(None)` leaves the result list empty regardless of its
prior contents. -/
theorem loadMangasFound_sets_displaying (page : SearchPage)
    (response : Option SearchMangaResponse) :
    (page.applyEvent (SearchPageEvents.LoadMangasFound response)).1.state =
      PageState.DisplayingSearchResponse ∧
    (page.applyEvent (SearchPageEvents.LoadMangasFound none)).1.mangas = [] := by
  constructor
  · cases response <;> rfl
  · rfl

/-- C5: the search task sends exactly one `LoadMangasFound` event on the
local channel: `Some(data)` when the remote call succeeded with at least
one item, `None` when it succeeded with zero items or failed. -/
theorem searchTask_sends_exactly_one (r : Except Unit SearchMangaResponse) :
    ∃ payload, searchTaskSends r = [SearchPageEvents.LoadMangasFound payload] ∧
      ((∃ m, payload = some m ∧ r = Except.ok m ∧ m.data ≠ []) ∨
        (payload = none ∧
          (r = Except.error () ∨ ∃ m, r = Except.ok m ∧ m.data = []))) := by
  cases r with
  | error e =>
      cases e
      exact ⟨none, rfl, Or.inr ⟨rfl, Or.inl rfl⟩⟩
  | ok m =>
      cases hd : m.data.isEmpty with
      | true =>
          refine ⟨none, by simp [searchTaskSends, hd], Or.inr ⟨rfl, Or.inr ⟨m, rfl, ?_⟩⟩⟩
          exact List.isEmpty_iff.mp hd
      | false =>
          refine ⟨some m, by simp [searchTaskSends, hd], Or.inl ⟨m, rfl, rfl, ?_⟩⟩
          intro hnil
          rw [hnil] at hd
          simp at hd

/-- Witness for C5 at a concrete successful nonempty response. -/
theorem searchTask_sends_exactly_one_witness :
    ∃ payload, searchTaskSends (Except.ok sampleResponse) =
        [SearchPageEvents.LoadMangasFound payload] ∧
      ((∃ m, payload = some m ∧
          (Except.ok sampleResponse : Except Unit SearchMangaResponse) =
            Except.ok m ∧ m.data ≠ []) ∨
        (payload = none ∧
          ((Except.ok sampleResponse : Except Unit SearchMangaResponse) =
              Except.error () ∨
            ∃ m, (Except.ok sampleResponse : Except Unit SearchMangaResponse) =
              Except.ok m ∧ m.data = []))) :=
  searchTask_sends_exactly_one (Except.ok sampleResponse)

/-- C9: `tick` with an empty local queue returns the page unchanged
(every field), and with a nonempty queue it applies exactly the head
event: the resulting state is `applyEvent` of that one event and the
rest of the queue survives untouched (followed only by events the
application itself sent). -/
theorem tick_applies_at_most_one_event (page : SearchPage)
    (event : SearchPageEvents) (rest : List SearchPageEvents) :
    page.tick [] = (page, [], []) ∧
    (page.tick (event :: rest)).1 = (page.applyEvent event).1 ∧
    ∃ sent, (page.tick (event :: rest)).2.1 = rest ++ sent := by
  exact ⟨rfl, rfl, ⟨_, rfl⟩⟩

/-- C10: consuming `DecodeImage(Some(bytes), id)` spawns the decode
thread unconditionally — no check that `id` is in the current list —
while the id-keyed filtering happens only when the resulting `LoadCover`
event is applied: with no matching item, `LoadCover(Some(..), id)`
changes nothing and spawns nothing. -/
theorem decodeImage_spawns_unconditionally (page : SearchPage) (bytes : Bytes)
    (id : String) :
    page.applyEvent (SearchPageEvents.DecodeImage (some bytes) id) =
      (page, [Effect.spawnDecodeThread bytes id]) ∧
    (∀ image, (∀ manga ∈ page.mangas, manga.id ≠ id) →
      page.applyEvent (SearchPageEvents.LoadCover (some image) id) = (page, [])) :=
  ⟨rfl, fun image h => applyEvent_loadCover_of_no_match page (some image) id h⟩

/-- Witness for C10 at a concrete page whose single item has id `a2`,
with pipeline events tagged `a1`. -/
theorem decodeImage_spawns_unconditionally_witness :
    displayingPage.applyEvent (SearchPageEvents.DecodeImage (some 7) "a1") =
      (displayingPage, [Effect.spawnDecodeThread 7 "a1"]) ∧
    displayingPage.applyEvent (SearchPageEvents.LoadCover (some 5) "a1") =
      (displayingPage, []) := by
  have h := decodeImage_spawns_unconditionally displayingPage 7 "a1"
  exact ⟨h.1, h.2 5 (by decide)⟩

/-- C1 counterexample: on a page with `PageState = SearchingMangas` and
a nonempty result list, applying the `Search` action is not a no-op —
the list is cleared and a new search fetch task is spawned. -/
theorem search_action_not_noop_counterexample :
    searchingPage.state = PageState.SearchingMangas ∧
    searchingPage.mangas ≠ [] ∧
    (searchingPage.update SearchPageActions.Search).1.mangas = [] ∧
    (searchingPage.update SearchPageActions.Search).2 =
      [Effect.spawnSearchTask "naruto"] := by
  decide

/-- C1 (amended): when `PageState = SearchingMangas` the `Enter` key
emits no action at all — the search guard lives in key handling, so no
`Search` action is produced while searching — whereas `update` applied
to a `Search` action is unconditional: it keeps the page in
`SearchingMangas`, clears the result list and spawns a search fetch
task. -/
theorem search_guard_in_key_handling (page : SearchPage)
    (h : page.state = PageState.SearchingMangas) :
    page.handle_key_events KeyCode.Enter = (page, []) ∧
    (page.update SearchPageActions.Search).1.state = PageState.SearchingMangas ∧
    (page.update SearchPageActions.Search).1.mangas = [] ∧
    (page.update SearchPageActions.Search).2 =
      [Effect.spawnSearchTask page.search_bar] := by
  refine ⟨?_, rfl, rfl, rfl⟩
  obtain ⟨im, sb, st, ml⟩ := page
  have hst : st = PageState.SearchingMangas := h
  cases im with
  | Idle => rfl
  | Typing => simp [SearchPage.handle_key_events, hst]

/-- Witness for the amended C1 at a concrete searching page. -/
theorem search_guard_in_key_handling_witness :
    searchingPage.handle_key_events KeyCode.Enter = (searchingPage, []) ∧
    (searchingPage.update SearchPageActions.Search).1.state =
      PageState.SearchingMangas ∧
    (searchingPage.update SearchPageActions.Search).1.mangas = [] ∧
    (searchingPage.update SearchPageActions.Search).2 =
      [Effect.spawnSearchTask searchingPage.search_bar] :=
  search_guard_in_key_handling searchingPage (by decide)

/-- C2 counterexample: a reachable trace violating the claim. From the
initial page, a completed search loads two items, two scroll-downs move
the cursor to index 1, and a new `Search` action replaces the list: the
cursor is not cleared — it stays 1, out of bounds for the now-empty
list — and a `LoadMangasFound` replacement keeps it as well. -/
theorem cursor_not_reset_counterexample :
    (let s1 := (initPage.applyEvent
        (SearchPageEvents.LoadMangasFound (some sampleResponse))).1
     let s2 := (s1.update SearchPageActions.ScrollDown).1
     let s3 := (s2.update SearchPageActions.ScrollDown).1
     let s4 := (s3.update SearchPageActions.Search).1
     s3.selected = some 1 ∧ s3.cursorInBounds ∧
     s4.selected = some 1 ∧ s4.mangas = [] ∧ ¬ s4.cursorInBounds ∧
     (s3.applyEvent (SearchPageEvents.LoadMangasFound none)).1.selected = some 1) := by
  decide

/-- C2 (amended): replacing the result list — by a `Search` action or
any `LoadMangasFound` event — leaves the selection cursor untouched
rather than resetting it, so it can end up out of bounds; selection
reads use safe indexing, so an out-of-range cursor selects no item. -/
theorem cursor_survives_list_replacement (page : SearchPage)
    (response : Option SearchMangaResponse) (i : Nat)
    (hsel : page.selected = some i) (hlen : page.mangas.length ≤ i) :
    (page.update SearchPageActions.Search).1.selected = page.selected ∧
    (page.applyEvent (SearchPageEvents.LoadMangasFound response)).1.selected =
      page.selected ∧
    page.get_current_manga_selected = none := by
  refine ⟨rfl, ?_, ?_⟩
  · cases response <;> rfl
  · unfold SearchPage.get_current_manga_selected
    have hsel' : page.mangas_found_list.state.selected = some i := hsel
    rw [hsel']
    exact List.get?_eq_none.mpr hlen

/-- Witness for the amended C2 at a page whose cursor is stale. -/
theorem cursor_survives_list_replacement_witness :
    (staleCursorPage.update SearchPageActions.Search).1.selected =
      staleCursorPage.selected ∧
    (staleCursorPage.applyEvent (SearchPageEvents.LoadMangasFound none)).1.selected =
      staleCursorPage.selected ∧
    staleCursorPage.get_current_manga_selected = none :=
  cursor_survives_list_replacement staleCursorPage none 1 (by decide) (by decide)

/-- C8: an id-keyed event whose id matches no item in the current list —
a `LoadCover` event on the local channel or a global `Redraw` event —
mutates nothing: the page is returned unchanged, and the embedded
functions are total (no panic). -/
theorem unmatched_id_events_are_noops (page : SearchPage)
    (image : Option DynamicImage) (new_protocol : ProtocolHandle) (id : String)
    (h : ∀ manga ∈ page.mangas, manga.id ≠ id) :
    page.applyEvent (SearchPageEvents.LoadCover image id) = (page, []) ∧
    page.handleRedraw new_protocol id = page :=
  ⟨applyEvent_loadCover_of_no_match page image id h,
    handleRedraw_of_no_match page new_protocol id h⟩

/-- Witness for C8: events tagged `zz` against a page listing only
`a2`. -/
theorem unmatched_id_events_are_noops_witness :
    displayingPage.applyEvent (SearchPageEvents.LoadCover (some 3) "zz") =
      (displayingPage, []) ∧
    displayingPage.handleRedraw 9 "zz" = displayingPage :=
  unmatched_id_events_are_noops displayingPage (some 3) 9 "zz" (by decide)

theorem cursorInBounds_iff (page : SearchPage) :
    page.cursorInBounds ↔ ∀ i, page.mangas_found_list.state.selected = some i →
      i < page.mangas_found_list.widget.mangas.length := by
  unfold SearchPage.cursorInBounds
  cases h : page.mangas_found_list.state.selected <;> simp

theorem update_scroll_preserves_mangas (page : SearchPage) (a : SearchPageActions)
    (ha : isScroll a = true) : (page.update a).1.mangas = page.mangas := by
  cases a <;> first | rfl | exact absurd ha (by decide)

theorem scroll_preserves_cursorInBounds (page : SearchPage) (a : SearchPageActions)
    (ha : isScroll a = true) (hc : page.cursorInBounds) :
    (page.update a).1.cursorInBounds := by
  have hlen := update_scroll_preserves_mangas page a ha
  cases a with
  | ScrollUp =>
      rw [cursorInBounds_iff] at hc ⊢
      intro i hi
      show i < page.mangas_found_list.widget.mangas.length
      revert hi
      show (page.mangas_found_list.state.previous
        page.mangas_found_list.widget.mangas.length).selected = some i → _
      unfold ListState.previous
      by_cases h0 : page.mangas_found_list.widget.mangas.length = 0
      · simp [h0]
      · cases hs : page.mangas_found_list.state.selected with
        | none =>
            simp [h0, hs]
            omega
        | some j =>
            have hj := hc j hs
            simp [h0, hs]
            omega
  | ScrollDown =>
      rw [cursorInBounds_iff] at hc ⊢
      intro i hi
      show i < page.mangas_found_list.widget.mangas.length
      revert hi
      show (page.mangas_found_list.state.next
        page.mangas_found_list.widget.mangas.length).selected = some i → _
      unfold ListState.next
      by_cases h0 : page.mangas_found_list.widget.mangas.length = 0
      · simp [h0]
      · cases hs : page.mangas_found_list.state.selected with
        | none =>
            simp [h0, hs]
            omega
        | some j =>
            simp [h0, hs]
            omega
  | StartTyping => exact absurd ha (by decide)
  | StopTyping => exact absurd ha (by decide)
  | Search => exact absurd ha (by decide)

theorem applyActions_scroll_invariant (actions : List SearchPageActions)
    (page : SearchPage) (hacts : ∀ a ∈ actions, isScroll a = true)
    (hc : page.cursorInBounds) :
    (page.applyActions actions).cursorInBounds ∧
    (page.applyActions actions).mangas = page.mangas := by
  induction actions generalizing page with
  | nil => exact ⟨hc, rfl⟩
  | cons a as ih =>
      have ha := hacts a (List.mem_cons_self a as)
      have hstep := scroll_preserves_cursorInBounds page a ha hc
      have hmangas := update_scroll_preserves_mangas page a ha
      have hrest := ih (page.update a).1
        (fun b hb => hacts b (List.mem_cons_of_mem a hb)) hstep
      refine ⟨hrest.1, ?_⟩
      calc (page.applyActions (a :: as)).mangas
          = ((page.update a).1.applyActions as).mangas := rfl
        _ = (page.update a).1.mangas := hrest.2
        _ = page.mangas := hmangas

theorem cursorInBounds_empty_selected_none (page : SearchPage)
    (hc : page.cursorInBounds) (he : page.mangas = []) : page.selected = none := by
  rw [cursorInBounds_iff] at hc
  cases hs : page.mangas_found_list.state.selected with
  | none => exact hs
  | some i =>
      have := hc i hs
      have hlen : page.mangas_found_list.widget.mangas.length = 0 := by
        have : page.mangas_found_list.widget.mangas = [] := he
        simp [this]
      omega

/-- C3: over any sequence of scroll actions the cursor stays a valid
index (or absent, which an empty list forces), the list itself is
untouched, and the cursor never wraps: scrolling up at index 0 stays at
0 and scrolling down at the last index stays at the last index. The
scroll semantics (`ListState::next`/`previous` of the external
`tui_widget_list` crate) are modelled from the spec's clamping
contract. -/
theorem scrolls_stay_in_bounds_no_wrap (page : SearchPage)
    (actions : List SearchPageActions)
    (hacts : ∀ a ∈ actions, isScroll a = true) (hc : page.cursorInBounds) :
    (page.applyActions actions).cursorInBounds ∧
    (page.applyActions actions).mangas = page.mangas ∧
    (page.mangas = [] → (page.applyActions actions).selected = none) ∧
    (0 < page.mangas.length → page.selected = some 0 →
      (page.update SearchPageActions.ScrollUp).1.selected = some 0) ∧
    (0 < page.mangas.length → page.selected = some (page.mangas.length - 1) →
      (page.update SearchPageActions.ScrollDown).1.selected =
        some (page.mangas.length - 1)) := by
  obtain ⟨hinv, hmangas⟩ := applyActions_scroll_invariant actions page hacts hc
  refine ⟨hinv, hmangas, ?_, ?_, ?_⟩
  · intro he
    exact cursorInBounds_empty_selected_none _ hinv (hmangas.trans he)
  · intro hpos hsel
    have hsel' : page.mangas_found_list.state.selected = some 0 := hsel
    have h0 : ¬ page.mangas_found_list.widget.mangas.length = 0 := by
      have : 0 < page.mangas_found_list.widget.mangas.length := hpos
      omega
    show (page.mangas_found_list.state.previous
      page.mangas_found_list.widget.mangas.length).selected = some 0
    unfold ListState.previous
    simp [h0, hsel']
  · intro hpos hsel
    have hsel' : page.mangas_found_list.state.selected =
      some (page.mangas_found_list.widget.mangas.length - 1) := hsel
    have h0 : ¬ page.mangas_found_list.widget.mangas.length = 0 := by
      have : 0 < page.mangas_found_list.widget.mangas.length := hpos
      omega
    show (page.mangas_found_list.state.next
      page.mangas_found_list.widget.mangas.length).selected =
      some (page.mangas_found_list.widget.mangas.length - 1)
    unfold ListState.next
    simp [h0, hsel']

/-- Witness for C3: a concrete two-item page scrolled down twice and up
three times; the cursor ends in bounds without wrapping at either
end. -/
theorem scrolls_stay_in_bounds_no_wrap_witness :
    (selectedPage.applyActions [SearchPageActions.ScrollDown,
      SearchPageActions.ScrollDown, SearchPageActions.ScrollUp,
      SearchPageActions.ScrollUp, SearchPageActions.ScrollUp]).cursorInBounds ∧
    (selectedPage.applyActions [SearchPageActions.ScrollDown,
      SearchPageActions.ScrollDown, SearchPageActions.ScrollUp,
      SearchPageActions.ScrollUp, SearchPageActions.ScrollUp]).mangas =
      selectedPage.mangas ∧
    (selectedPage.mangas = [] → (selectedPage.applyActions [SearchPageActions.ScrollDown,
      SearchPageActions.ScrollDown, SearchPageActions.ScrollUp,
      SearchPageActions.ScrollUp, SearchPageActions.ScrollUp]).selected = none) ∧
    (0 < selectedPage.mangas.length → selectedPage.selected = some 0 →
      (selectedPage.update SearchPageActions.ScrollUp).1.selected = some 0) ∧
    (0 < selectedPage.mangas.length →
      selectedPage.selected = some (selectedPage.mangas.length - 1) →
      (selectedPage.update SearchPageActions.ScrollDown).1.selected =
        some (selectedPage.mangas.length - 1)) :=
  scrolls_stay_in_bounds_no_wrap selectedPage
    [SearchPageActions.ScrollDown, SearchPageActions.ScrollDown,
      SearchPageActions.ScrollUp, SearchPageActions.ScrollUp,
      SearchPageActions.ScrollUp] (by decide) (by decide)

theorem buildMangaEntry_fst (manga : Manga) :
    (buildMangaEntry manga).1 = MangaItem.fromManga manga := by
  simp only [buildMangaEntry]
  split <;> rfl

theorem buildMangaEntry_snd_of_cover (manga : Manga) (d : Relationship)
    (attr : CoverImgAttributes)
    (hfind : manga.relationships.find?
      (fun relation => relation.attributes.isSome) = some d)
    (hattr : d.attributes = some attr) :
    (buildMangaEntry manga).2 =
      [Effect.spawnCoverFetchTask manga.id attr.file_name] := by
  simp [buildMangaEntry, hfind, hattr]

theorem buildMangaEntry_snd_of_no_cover (manga : Manga)
    (hfind : manga.relationships.find?
      (fun relation => relation.attributes.isSome) = none) :
    (buildMangaEntry manga).2 =
      [Effect.sendLocal (SearchPageEvents.DecodeImage none manga.id)] := by
  simp [buildMangaEntry, hfind]

theorem buildMangaEntry_snd_shape (manga : Manga) (e : Effect)
    (he : e ∈ (buildMangaEntry manga).2) :
    (∃ fn, e = Effect.spawnCoverFetchTask manga.id fn ∧
      manga.relationships.find? (fun relation => relation.attributes.isSome) ≠ none) ∨
    (e = Effect.sendLocal (SearchPageEvents.DecodeImage none manga.id) ∧
      manga.relationships.find? (fun relation => relation.attributes.isSome) = none) := by
  cases hfind : manga.relationships.find?
    (fun relation => relation.attributes.isSome) with
  | none =>
      rw [buildMangaEntry_snd_of_no_cover manga hfind] at he
      simp at he
      exact Or.inr ⟨he, rfl⟩
  | some d =>
      have hd := List.find?_some hfind
      obtain ⟨attr, hattr⟩ := Option.isSome_iff_exists.mp (by simpa using hd)
      rw [buildMangaEntry_snd_of_cover manga d attr hfind hattr] at he
      simp at he
      exact Or.inl ⟨attr.file_name, he, by simp [hfind]⟩

theorem applyEvent_loadMangasFound_mangas (page : SearchPage)
    (resp : SearchMangaResponse) :
    (page.applyEvent (SearchPageEvents.LoadMangasFound (some resp))).1.mangas =
      resp.data.map MangaItem.fromManga := by
  simp [SearchPage.applyEvent, SearchPage.mangas, ListMangasFoundWidget.new,
    List.map_map, Function.comp_def, buildMangaEntry_fst]

theorem applyEvent_loadMangasFound_effects_mem (page : SearchPage)
    (resp : SearchMangaResponse) (e : Effect) :
    e ∈ (page.applyEvent (SearchPageEvents.LoadMangasFound (some resp))).2 ↔
      ∃ m ∈ resp.data, e ∈ (buildMangaEntry m).2 := by
  simp [SearchPage.applyEvent, List.mem_flatMap, List.mem_map]

/-- C6: applying `LoadMangasFound(Some(data))` rebuilds the result list
to exactly the response's items in response order; for every response
item with cover metadata a cover fetch task is spawned, and for every
item without cover metadata a `DecodeImage(None, id)` event is sent
immediately and (given distinct ids) no fetch task is spawned for that
id; no decode worker is spawned at list-build time for any id. -/
theorem loadMangasFound_rebuilds_list (page : SearchPage)
    (resp : SearchMangaResponse)
    (hnodup : (resp.data.map Manga.id).Nodup) :
    ((page.applyEvent (SearchPageEvents.LoadMangasFound (some resp))).1.mangas =
      resp.data.map MangaItem.fromManga) ∧
    (∀ manga ∈ resp.data,
      ((∃ r ∈ manga.relationships, r.attributes.isSome) →
        ∃ fn, Effect.spawnCoverFetchTask manga.id fn ∈
          (page.applyEvent (SearchPageEvents.LoadMangasFound (some resp))).2) ∧
      ((∀ r ∈ manga.relationships, r.attributes = none) →
        Effect.sendLocal (SearchPageEvents.DecodeImage none manga.id) ∈
          (page.applyEvent (SearchPageEvents.LoadMangasFound (some resp))).2 ∧
        ∀ fn, Effect.spawnCoverFetchTask manga.id fn ∉
          (page.applyEvent (SearchPageEvents.LoadMangasFound (some resp))).2)) ∧
    (∀ b id, Effect.spawnDecodeThread b id ∉
      (page.applyEvent (SearchPageEvents.LoadMangasFound (some resp))).2) := by
  refine ⟨applyEvent_loadMangasFound_mangas page resp, ?_, ?_⟩
  · intro manga hm
    constructor
    · intro ⟨r, hr, hattr⟩
      have hfs : (manga.relationships.find?
          (fun relation => relation.attributes.isSome)).isSome := by
        rw [List.find?_isSome]
        exact ⟨r, hr, hattr⟩
      obtain ⟨d, hfind⟩ := Option.isSome_iff_exists.mp hfs
      have hd := List.find?_some hfind
      obtain ⟨attr, hattr'⟩ := Option.isSome_iff_exists.mp (by simpa using hd)
      refine ⟨attr.file_name, ?_⟩
      rw [applyEvent_loadMangasFound_effects_mem]
      refine ⟨manga, hm, ?_⟩
      rw [buildMangaEntry_snd_of_cover manga d attr hfind hattr']
      simp
    · intro hnone
      have hfind : manga.relationships.find?
          (fun relation => relation.attributes.isSome) = none := by
        rw [List.find?_eq_none]
        intro r hr
        simp [hnone r hr]
      constructor
      · rw [applyEvent_loadMangasFound_effects_mem]
        refine ⟨manga, hm, ?_⟩
        rw [buildMangaEntry_snd_of_no_cover manga hfind]
        simp
      · intro fn hmem
        rw [applyEvent_loadMangasFound_effects_mem] at hmem
        obtain ⟨m', hm', he'⟩ := hmem
        rcases buildMangaEntry_snd_shape m' _ he' with ⟨fn', heq, hne⟩ | ⟨heq, _⟩
        · have hid : m'.id = manga.id := by
            have := heq
            injection this.symm with h1 h2
          have : m' = manga :=
            List.inj_on_of_nodup_map hnodup hm' hm hid
          rw [this] at hne
          exact hne hfind
        · exact Effect.noConfusion heq
  · intro b id hmem
    rw [applyEvent_loadMangasFound_effects_mem] at hmem
    obtain ⟨m', hm', he'⟩ := hmem
    rcases buildMangaEntry_snd_shape m' _ he' with ⟨fn', heq, _⟩ | ⟨heq, _⟩
    · exact Effect.noConfusion heq
    · exact Effect.noConfusion heq

/-- Witness for C6: the two-item sample response (`a1` with cover
metadata, `a2` without) applied to a concrete page. -/
theorem loadMangasFound_rebuilds_list_witness :
    (displayingPage.applyEvent
        (SearchPageEvents.LoadMangasFound (some sampleResponse))).1.mangas =
      sampleResponse.data.map MangaItem.fromManga :=
  (loadMangasFound_rebuilds_list displayingPage sampleResponse (by decide)).1

theorem updateFirst_all_of {α : Type} (p q : α → Bool) (f : α → α) (l : List α)
    (hl : l.all q = true) (hf : ∀ x, q x = true → p x = true → q (f x) = true) :
    (updateFirst p f l).all q = true := by
  induction l with
  | nil => rfl
  | cons x xs ih =>
      rw [List.all_cons, Bool.and_eq_true] at hl
      unfold updateFirst
      by_cases hp : p x = true
      · rw [if_pos hp, List.all_cons, Bool.and_eq_true]
        exact ⟨hf x hl.1 hp, hl.2⟩
      · rw [if_neg hp, List.all_cons, Bool.and_eq_true]
        exact ⟨hl.1, ih hl.2⟩

theorem applyEvent_preserves_coverAbsent (page : SearchPage)
    (event : SearchPageEvents) (id : String)
    (hev : ∀ image, event ≠ SearchPageEvents.LoadCover (some image) id)
    (habs : page.coverAbsent id = true) :
    (page.applyEvent event).1.coverAbsent id = true := by
  cases event with
  | LoadMangasFound response =>
      cases response with
      | none => rfl
      | some resp =>
          unfold SearchPage.coverAbsent
          have hm : (page.applyEvent
              (SearchPageEvents.LoadMangasFound (some resp))).1.mangas_found_list.widget.mangas =
              resp.data.map MangaItem.fromManga :=
            applyEvent_loadMangasFound_mangas page resp
          rw [hm]
          simp [List.all_eq_true, MangaItem.fromManga]
  | DecodeImage maybe_bytes manga_id => cases maybe_bytes <;> exact habs
  | LoadCover maybe_image manga_id =>
      cases maybe_image with
      | none => exact habs
      | some image =>
          have hid : manga_id ≠ id := fun h => hev image (by rw [h])
          simp only [SearchPage.applyEvent]
          split
          · unfold SearchPage.coverAbsent at habs ⊢
            refine updateFirst_all_of _ _ _ _ habs ?_
            intro x hx hp
            have hxid : x.id = manga_id := by simpa using hp
            simp [hxid, hid]
          · exact habs

theorem handleRedraw_preserves_coverAbsent (page : SearchPage)
    (new_protocol : ProtocolHandle) (id : String)
    (habs : page.coverAbsent id = true) :
    (page.handleRedraw new_protocol id).coverAbsent id = true := by
  unfold SearchPage.coverAbsent at habs ⊢
  simp only [SearchPage.handleRedraw]
  refine updateFirst_all_of _ _ _ _ habs ?_
  intro x hx hp
  rw [hp] at hx
  simp at hx
  simp [hx, hp]

theorem pipeline_none_no_loadCover (manga_id : String) (fetch : Except Unit Bytes)
    (decode : Bytes → Except Unit DynamicImage)
    (hmem : SearchPageEvents.DecodeImage none manga_id ∈
      pipelineLocalEvents manga_id fetch decode) :
    ∀ image, SearchPageEvents.LoadCover image manga_id ∉
      pipelineLocalEvents manga_id fetch decode := by
  cases fetch with
  | error e =>
      intro image h
      simp [pipelineLocalEvents, coverFetchTaskSends] at h
  | ok bytes =>
      exfalso
      cases hdec : decode bytes <;>
        simp [pipelineLocalEvents, coverFetchTaskSends, decodeThreadSends, hdec] at hmem

/-- C7: consuming `DecodeImage(None, id)` mutates nothing, spawns
nothing and sends nothing; within an item's cover pipeline, if
`DecodeImage(None, id)` is produced then no `LoadCover` event tagged
`id` is ever produced; and an absent `image_state` for that id stays
absent under every event other than `LoadCover(Some(..), id)` and under
global redraws tagged `id`. -/
theorem decodeImage_none_is_terminal (page : SearchPage) (id : String)
    (fetch : Except Unit Bytes) (decode : Bytes → Except Unit DynamicImage)
    (event : SearchPageEvents) (new_protocol : ProtocolHandle)
    (hev : ∀ image, event ≠ SearchPageEvents.LoadCover (some image) id)
    (habs : page.coverAbsent id = true) :
    page.applyEvent (SearchPageEvents.DecodeImage none id) = (page, []) ∧
    (SearchPageEvents.DecodeImage none id ∈ pipelineLocalEvents id fetch decode →
      ∀ image, SearchPageEvents.LoadCover image id ∉
        pipelineLocalEvents id fetch decode) ∧
    (page.applyEvent event).1.coverAbsent id = true ∧
    (page.handleRedraw new_protocol id).coverAbsent id = true :=
  ⟨rfl, fun hmem => pipeline_none_no_loadCover id fetch decode hmem,
    applyEvent_preserves_coverAbsent page event id hev habs,
    handleRedraw_preserves_coverAbsent page new_protocol id habs⟩

/-- Witness for C7: a concrete page (listing only `a2`, no artwork)
consuming `DecodeImage(None, "a1")` from a failed fetch. -/
theorem decodeImage_none_is_terminal_witness :
    displayingPage.applyEvent (SearchPageEvents.DecodeImage none "a1") =
      (displayingPage, []) :=
  (decodeImage_none_is_terminal displayingPage "a1" (Except.error ())
    (fun _ => Except.error ()) (SearchPageEvents.DecodeImage none "a1") 9
    (fun _ h => SearchPageEvents.noConfusion h) (by decide)).1

end MangaTui
